import Mathlib

/-!
Verification of the python-bale-bot typed object model and error taxonomy.

Shallow embedding of the repository sources:
  * `src/bale/_error.py`      — error taxonomy, `check_description` predicates
  * `src/bale/_chat.py`       — `Chat` entity, `from_dict`, derived predicates
  * `src/bale/_chatmember.py` — `ChatMember` entity, `is_owner` / `is_admin`
  * `src/bale/_message.py`    — `Message` entity, `from_dict`, `attachment`, `content`
  * `src/bale/attachments/_video.py`   — `Video` entity
  * `src/bale/attachments/_contact.py` — `Contact` entity

Code of the repository that is not under `src/` (the `BaleObject` base class
in `bale/_baleobject.py`, the `MissingValue` sentinel in `bale/utils/types.py`,
the leaf entity classes `User`, `Document`, `Audio`, `Voice`, `Animation`,
`Sticker`, `PhotoSize`, `ChatPhoto`, `Location`, `Invoice`,
`SuccessfulPayment`, `parse_time` in `bale/helpers.py`, and the transport-side
error classifier) is modelled from the specification; every such definition
carries a doc comment starting with `Modelled from the spec:`.

Machine integers are modelled as `Int`, Python strings as `String` (with
character-list operations where Python performs substring / lower-casing
work), Python `datetime` values as their integer Unix timestamps.
-/

/-- Modelled from the spec: the value domain of an optional entity field.
`bale/utils/types.py` (not under src/) defines a class-level "missing value"
sentinel distinct from `None`; spec §3/§4.1 require a tri-state
(unset / explicit-null / present-value).  `Py.missing` is the `MissingValue`
sentinel, `Py.noneV` is Python `None`, `Py.val a` a present value.  Both
`missing` and `noneV` are falsy (the sentinel defines a false `__bool__`,
which `Message.attachment`'s or-chain in src/bale/_message.py relies on). -/
inductive Py (α : Type) where
  | missing : Py α
  | noneV : Py α
  | val : α → Py α
deriving DecidableEq

/-- Python truthiness of an entity-valued field: entity objects define no
`__bool__`/`__len__`, so a present entity is always truthy. -/
def Py.isVal {α : Type} : Py α → Bool
  | .val _ => true
  | _ => false

/-- Python truthiness of a string-valued field: a present string is truthy
iff it is nonempty. -/
def Py.strTruthy : Py String → Bool
  | .val s => s != ""
  | _ => false

/-- Python truthiness of a list-valued field: a present list is truthy iff
it is nonempty. -/
def Py.listTruthy {α : Type} : Py (List α) → Bool
  | .val l => !l.isEmpty
  | _ => false

/-- Modelled from the spec: the generic `BaleObject.from_dict`
(bale/_baleobject.py is not under src/) passes each wire key that names a
constructor parameter through to the constructor; a key absent from the
payload leaves the constructor default, which is the `MissingValue` sentinel
for every optional parameter (visible in the src constructors). -/
def Py.ofWire {α : Type} : Option α → Py α
  | Option.none => .missing
  | Option.some a => .val a

/-- A field that the entity-specific `from_dict` pre-resolves (a nested
`X.from_dict(...)` call or `parse_time(...)`) before invoking the
constructor: the resolver returns Python `None` when there is nothing to
parse, and that `None` is stored into the field mapping, so the constructor
receives `None` rather than its `MissingValue` default. -/
def Py.ofResolved {α : Type} : Option α → Py α
  | Option.none => .noneV
  | Option.some a => .val a

/- ### Character-list string operations (Python `startswith`, `in`, `lower`) -/

/-- Python `str.startswith`, on character lists: `startsWithList needle hay`
is true iff `needle` is a prefix of `hay`. -/
def startsWithList : List Char → List Char → Bool
  | [], _ => true
  | _ :: _, [] => false
  | a :: ns, b :: hs => a == b && startsWithList ns hs

/-- Python substring membership `needle in hay`, on character lists. -/
def containsList (needle : List Char) : List Char → Bool
  | [] => needle.isEmpty
  | b :: hs => startsWithList needle (b :: hs) || containsList needle hs

/-- Python `str.lower`, modelled character-wise. -/
def pyLowerChars (s : List Char) : List Char := s.map Char.toLower

/- ### Error taxonomy (src/bale/_error.py) -/

/-- `HTTPClientError.USER_OR_CHAT_NOT_FOUND` (src/bale/_error.py line 34). -/
def HTTPClientError.USER_OR_CHAT_NOT_FOUND : String := "no such group or user"

/-- `HTTPClientError.TOKEN_NOT_FOUND` (src/bale/_error.py line 35). -/
def HTTPClientError.TOKEN_NOT_FOUND : String := "Bad Request: Token not found"

/-- `HTTPClientError.RATE_LIMIT` (src/bale/_error.py line 36). -/
def HTTPClientError.RATE_LIMIT : String := "bot limit exceed"

/-- `BaleError.check_description` (src/bale/_error.py lines 56-58): the base
class always answers `False`; `APIError`, `NetworkError`, `TimeOut`,
`RateLimited` and `HTTPException` inherit it.  The `Bool` is the Python
truthiness of the value the method returns. -/
def BaleError.check_description (_d : Option String) : Bool := false

/-- `InvalidToken.check_description` (src/bale/_error.py lines 80-82):
`description and "token not found" in description.lower()`.  The `and`
short-circuits on a falsy (`None` or empty) description. -/
def InvalidToken.check_description (d : Option String) : Bool :=
  match d with
  | Option.none => false
  | Option.some s =>
    if s == "" then false
    else containsList "token not found".toList (pyLowerChars s.toList)

/-- `NotFound.check_description` (src/bale/_error.py lines 121-123):
`description and HTTPClientError.USER_OR_CHAT_NOT_FOUND in description`. -/
def NotFound.check_description (d : Option String) : Bool :=
  match d with
  | Option.none => false
  | Option.some s =>
    if s == "" then false
    else containsList HTTPClientError.USER_OR_CHAT_NOT_FOUND.toList s.toList

/-- `Forbidden.check_description` (src/bale/_error.py lines 136-138):
`description and description.startswith("Forbidden:")`. -/
def Forbidden.check_description (d : Option String) : Bool :=
  match d with
  | Option.none => false
  | Option.some s =>
    if s == "" then false
    else startsWithList "Forbidden:".toList s.toList

/-- `BadRequest.check_description` (src/bale/_error.py lines 150-152):
`description and description.startswith("Bad Request:")`. -/
def BadRequest.check_description (d : Option String) : Bool :=
  match d with
  | Option.none => false
  | Option.some s =>
    if s == "" then false
    else startsWithList "Bad Request:".toList s.toList

/-- The error kinds a 400-class server response can classify to. -/
inductive ErrorKind where
  | invalidToken
  | notFound
  | forbidden
  | badRequest
  | genericBadRequest
deriving DecidableEq

/-- Modelled from the spec: the transport-side classifier of ambiguous
400-class responses is not under src/; spec §4.4 fixes the priority order:
"try each kind's `check_description(raw_description)` predicate in a fixed
priority order (most specific first: invalid-token,
not-found-by-description-substring, forbidden-by-prefix,
bad-request-by-prefix) and construct the first kind whose predicate matches;
if none match, fall back to the generic kind carrying the raw message". -/
def classifyDescription (d : Option String) : ErrorKind :=
  if InvalidToken.check_description d then ErrorKind.invalidToken
  else if NotFound.check_description d then ErrorKind.notFound
  else if Forbidden.check_description d then ErrorKind.forbidden
  else if BadRequest.check_description d then ErrorKind.badRequest
  else ErrorKind.genericBadRequest

/- ### Write-once locking (BaleObject, modelled from the spec) -/

/-- Modelled from the spec: the `BaleObject` locking discipline
(bale/_baleobject.py is not under src/; src constructors end with
`self._lock()`, e.g. src/bale/_chat.py line 78 and src/bale/_message.py
line 149).  Spec §4.1: "after the constructor body completes, the instance
transitions to immutable; any subsequent field write must fail with an error
(not silently ignored)".  An object is a field store plus a lock flag. -/
structure LockedObject (F V : Type) where
  fields : F → V
  locked : Bool

/-- The error text a write to a locked object fails with. -/
def lockErrorText : String := "object is immutable after construction"

/-- Modelled from the spec: `BaleObject.__setattr__` — a field write succeeds
while the constructor is still running (lock not yet taken) and fails with an
error once the object is locked. -/
def setAttr {F V : Type} [DecidableEq F] (o : LockedObject F V) (f : F) (v : V) :
    Except String (LockedObject F V) :=
  if o.locked then Except.error lockErrorText
  else Except.ok { o with fields := fun g => if g = f then v else o.fields g }

/-- A fresh, still-unlocked object at the start of a constructor body. -/
def newUnlocked {F V : Type} (init : F → V) : LockedObject F V :=
  { fields := init, locked := false }

/-- `BaleObject._lock` — transition to immutable. -/
def lockObject {F V : Type} (o : LockedObject F V) : LockedObject F V :=
  { o with locked := true }

/-- A constructor body in the src discipline: perform the field assignments
in order on the fresh object, then `_lock()` (e.g. src/bale/_chat.py lines
68-78, src/bale/_message.py lines 122-149). -/
def runInit {F V : Type} [DecidableEq F] (init : F → V) (assigns : List (F × V)) :
    LockedObject F V :=
  lockObject (assigns.foldl
    (fun o fv =>
      match setAttr o fv.1 fv.2 with
      | Except.ok o2 => o2
      | Except.error _ => o)
    (newUnlocked init))

/- ### Leaf entities (modelled from the spec where not under src/) -/

/-- Modelled from the spec: `User` (bale/_user.py is not under src/).  Spec
§3 gives it a platform user identifier; `ChatMember` reads `self.user.id`
(src/bale/_chatmember.py line 125) and the delegation layer reads
`user.user_id` (src/bale/_chat.py line 389). -/
structure User where
  user_id : Int
deriving DecidableEq

/-- Wire payload for a `User`; the wire carries the identifier under `id`. -/
structure UserPayload where
  id : Int
deriving DecidableEq

/-- Modelled from the spec: `User.from_dict` on a present payload (the
generic `BaleObject.from_dict` discipline). -/
def parseUser (p : UserPayload) : User := { user_id := p.id }

/-- `User.from_dict`: returns `None` when the payload is empty/absent. -/
def User.from_dict (d : Option UserPayload) : Option User := d.map parseUser

/-- Modelled from the spec: the common file base of `Document`, `Audio`,
`PhotoSize`, `Sticker`, `Voice`, `Animation`, `Video` — `file_id`,
`file_unique_id`, optional `file_size` (spec §3; the `Video` constructor in
src/bale/attachments/_video.py line 51 forwards exactly these three to
`super().__init__`). -/
structure BaseFile where
  file_id : String
  file_unique_id : String
  file_size : Py Int
deriving DecidableEq

/-- Wire payload for a file-base entity. -/
structure FilePayload where
  file_id : String
  file_unique_id : String
  file_size : Option Int := Option.none
deriving DecidableEq

/-- Modelled from the spec: constructing a file-base entity from a present
payload; an absent `file_size` key leaves the `MissingValue` default. -/
def parseBaseFile (p : FilePayload) : BaseFile :=
  { file_id := p.file_id, file_unique_id := p.file_unique_id,
    file_size := Py.ofWire p.file_size }

/-- Modelled from the spec: `Document` (bale/attachments/_document.py is not
under src/), a file-base entity. -/
structure Document where
  base : BaseFile
deriving DecidableEq

/-- Modelled from the spec: `Audio`, a file-base entity. -/
structure Audio where
  base : BaseFile
deriving DecidableEq

/-- Modelled from the spec: `Voice`, a file-base entity. -/
structure Voice where
  base : BaseFile
deriving DecidableEq

/-- Modelled from the spec: `Animation`, a file-base entity. -/
structure Animation where
  base : BaseFile
deriving DecidableEq

/-- Modelled from the spec: `PhotoSize`, a file-base entity. -/
structure PhotoSize where
  base : BaseFile
deriving DecidableEq

/-- Modelled from the spec: `Sticker`, a file-base entity. -/
structure Sticker where
  base : BaseFile
deriving DecidableEq

/-- Modelled from the spec: `Document.from_dict` on a present payload. -/
def parseDocument (p : FilePayload) : Document := ⟨parseBaseFile p⟩

/-- Modelled from the spec: `Audio.from_dict` on a present payload. -/
def parseAudio (p : FilePayload) : Audio := ⟨parseBaseFile p⟩

/-- Modelled from the spec: `Voice.from_dict` on a present payload. -/
def parseVoice (p : FilePayload) : Voice := ⟨parseBaseFile p⟩

/-- Modelled from the spec: `Animation.from_dict` on a present payload. -/
def parseAnimation (p : FilePayload) : Animation := ⟨parseBaseFile p⟩

/-- Modelled from the spec: `PhotoSize.from_dict` on a present payload. -/
def parsePhotoSize (p : FilePayload) : PhotoSize := ⟨parseBaseFile p⟩

/-- Modelled from the spec: `Sticker.from_dict` on a present payload. -/
def parseSticker (p : FilePayload) : Sticker := ⟨parseBaseFile p⟩

/-- Modelled from the spec: `ChatPhoto` (bale/attachments/_chatphoto.py is
not under src/); the spec does not detail its fields, so it is a
presence-only record carrying its raw payload. -/
structure ChatPhoto where
  raw : Int
deriving DecidableEq

/-- Wire payload for a `ChatPhoto`. -/
structure ChatPhotoPayload where
  raw : Int
deriving DecidableEq

/-- Modelled from the spec: `ChatPhoto.from_dict` on a present payload. -/
def parseChatPhoto (p : ChatPhotoPayload) : ChatPhoto := ⟨p.raw⟩

/-- Modelled from the spec: `Location` (not under src/); presence-only. -/
structure Location where
  raw : Int
deriving DecidableEq

/-- Wire payload for a `Location`. -/
structure LocationPayload where
  raw : Int
deriving DecidableEq

/-- Modelled from the spec: `Location.from_dict` on a present payload. -/
def parseLocation (p : LocationPayload) : Location := ⟨p.raw⟩

/-- Modelled from the spec: `Invoice` (not under src/); presence-only. -/
structure Invoice where
  raw : Int
deriving DecidableEq

/-- Wire payload for an `Invoice`. -/
structure InvoicePayload where
  raw : Int
deriving DecidableEq

/-- Modelled from the spec: `Invoice.from_dict` on a present payload. -/
def parseInvoice (p : InvoicePayload) : Invoice := ⟨p.raw⟩

/-- Modelled from the spec: `SuccessfulPayment` (not under src/);
presence-only. -/
structure SuccessfulPayment where
  raw : Int
deriving DecidableEq

/-- Wire payload for a `SuccessfulPayment`. -/
structure SuccessfulPaymentPayload where
  raw : Int
deriving DecidableEq

/-- Modelled from the spec: `SuccessfulPayment.from_dict` on a present
payload. -/
def parseSuccessfulPayment (p : SuccessfulPaymentPayload) : SuccessfulPayment :=
  ⟨p.raw⟩

/- ### Contact (src/bale/attachments/_contact.py) -/

/-- The `Contact` entity (src/bale/attachments/_contact.py lines 19-47). -/
structure Contact where
  phone_number : Int
  first_name : String
  last_name : Py String
  user_id : Py Int
deriving DecidableEq

/-- `Contact._id` — the constructor sets `self._id = user_id`
(src/bale/attachments/_contact.py line 41). -/
def Contact.baleIdOf (c : Contact) : Py Int := c.user_id

/-- Wire payload for a `Contact`. -/
structure ContactPayload where
  phone_number : Int
  first_name : String
  last_name : Option String := Option.none
  user_id : Option Int := Option.none
deriving DecidableEq

/-- `Contact` construction from a present payload: optional keys left absent
decode to the constructor's `MissingValue` defaults. -/
def parseContact (p : ContactPayload) : Contact :=
  { phone_number := p.phone_number, first_name := p.first_name,
    last_name := Py.ofWire p.last_name, user_id := Py.ofWire p.user_id }

/-- `Contact.from_dict` (the generic `BaleObject.from_dict` discipline). -/
def Contact.from_dict (d : Option ContactPayload) : Option Contact :=
  d.map parseContact

/- ### Video (src/bale/attachments/_video.py) -/

/-- The `Video` entity (src/bale/attachments/_video.py lines 19-59): the
file base plus `width`, `height`, `duration`, optional `file_name`,
optional `mime_type`. -/
structure Video where
  file_id : String
  file_unique_id : String
  file_size : Py Int
  width : Int
  height : Int
  duration : Int
  file_name : Py String
  mime_type : Py String
deriving DecidableEq

/-- Wire payload for a `Video`. -/
structure VideoPayload where
  file_id : String
  file_unique_id : String
  width : Int
  height : Int
  duration : Int
  file_name : Option String := Option.none
  mime_type : Option String := Option.none
  file_size : Option Int := Option.none
deriving DecidableEq

/-- `Video` construction from a present payload (constructor
src/bale/attachments/_video.py lines 49-59; absent optional keys leave the
`MissingValue` defaults). -/
def parseVideo (p : VideoPayload) : Video :=
  { file_id := p.file_id, file_unique_id := p.file_unique_id,
    file_size := Py.ofWire p.file_size,
    width := p.width, height := p.height, duration := p.duration,
    file_name := Py.ofWire p.file_name, mime_type := Py.ofWire p.mime_type }

/-- `Video.from_dict` (the generic `BaleObject.from_dict` discipline). -/
def Video.from_dict (d : Option VideoPayload) : Option Video := d.map parseVideo

/- ### Chat (src/bale/_chat.py) -/

/-- The `Chat` entity (src/bale/_chat.py lines 24-78). -/
structure Chat where
  id : Int
  type : String
  title : Py String
  username : Py String
  first_name : Py String
  last_name : Py String
  photo : Py ChatPhoto
  invite_link : Py String
deriving DecidableEq

/-- `Chat._id` — the constructor sets `self._id = chat_id` and
`self.id = chat_id` from the same parameter (src/bale/_chat.py lines
68-69), so the identity field always coincides with `id`. -/
def Chat.baleIdOf (c : Chat) : Int := c.id

/-- `Chat.PRIVATE` (src/bale/_chat.py line 46). -/
def Chat.PRIVATE : String := "private"

/-- `Chat.GROUP` (src/bale/_chat.py line 47). -/
def Chat.GROUP : String := "group"

/-- `Chat.CHANNEL` (src/bale/_chat.py line 48). -/
def Chat.CHANNEL : String := "channel"

/-- `Chat.is_private_chat` (src/bale/_chat.py lines 80-82). -/
def Chat.is_private_chat (c : Chat) : Bool := c.type == Chat.PRIVATE

/-- `Chat.is_group_chat` (src/bale/_chat.py lines 84-86). -/
def Chat.is_group_chat (c : Chat) : Bool := c.type == Chat.GROUP

/-- `Chat.is_channel_chat` (src/bale/_chat.py lines 88-90). -/
def Chat.is_channel_chat (c : Chat) : Bool := c.type == Chat.CHANNEL

/-- Wire payload for a `Chat`; `Chat.from_dict` pops the required keys `id`
and `type` (src/bale/_chat.py lines 531-532). -/
structure ChatPayload where
  id : Int
  type : String
  title : Option String := Option.none
  username : Option String := Option.none
  first_name : Option String := Option.none
  last_name : Option String := Option.none
  photo : Option ChatPhotoPayload := Option.none
  invite_link : Option String := Option.none
deriving DecidableEq

/-- `Chat` construction from a present payload (src/bale/_chat.py lines
525-535): `id`/`type` are renamed to the `chat_id`/`chat_type` parameters,
`photo` is pre-resolved through `ChatPhoto.from_dict` (so an absent photo
decodes to Python `None`), every other optional key left absent decodes to
the constructor's `MissingValue` default. -/
def parseChat (p : ChatPayload) : Chat :=
  { id := p.id, type := p.type,
    title := Py.ofWire p.title, username := Py.ofWire p.username,
    first_name := Py.ofWire p.first_name, last_name := Py.ofWire p.last_name,
    photo := Py.ofResolved (p.photo.map parseChatPhoto),
    invite_link := Py.ofWire p.invite_link }

/-- `Chat.from_dict` (src/bale/_chat.py lines 525-535): `None` on an
empty/absent payload, otherwise the constructed entity. -/
def Chat.from_dict (d : Option ChatPayload) : Option Chat := d.map parseChat

/-- Modelled from the spec: `BaleObject.__eq__` (bale/_baleobject.py is not
under src/).  Spec §4.1: "`_id` is used for equality/hashing across entity
instances (two Chat instances with the same id are equal)". -/
def Chat.baleEq (a b : Chat) : Bool := Chat.baleIdOf a == Chat.baleIdOf b

/-- Modelled from the spec: `BaleObject.__hash__` is a function of `_id`
alone; modelled as `_id` itself. -/
def Chat.baleHash (a : Chat) : Int := Chat.baleIdOf a

/- ### ChatMember (src/bale/_chatmember.py) -/

/-- The `ChatMember` entity (src/bale/_chatmember.py lines 23-127): a
status, a user, and the optional three-valued permission flags. -/
structure ChatMember where
  status : String
  user : User
  is_member : Py Bool := Py.missing
  can_change_info : Py Bool := Py.missing
  can_post_messages : Py Bool := Py.missing
  can_edit_messages : Py Bool := Py.missing
  can_delete_messages : Py Bool := Py.missing
  can_invite_users : Py Bool := Py.missing
  can_restrict_members : Py Bool := Py.missing
  can_pin_messages : Py Bool := Py.missing
  can_promote_members : Py Bool := Py.missing
  can_send_messages : Py Bool := Py.missing
  can_send_media_messages : Py Bool := Py.missing
  can_reply_to_story : Py Bool := Py.missing
  can_send_link_message : Py Bool := Py.missing
  can_send_forwarded_message : Py Bool := Py.missing
  can_see_members : Py Bool := Py.missing
  can_add_story : Py Bool := Py.missing
  can_be_edited : Py Bool := Py.missing
deriving DecidableEq

/-- `ChatMember.OWNER` (src/bale/_chatmember.py line 69). -/
def ChatMember.OWNER : String := "creator"

/-- `ChatMember.ADMIN` (src/bale/_chatmember.py line 70). -/
def ChatMember.ADMIN : String := "administrator"

/-- `ChatMember.MEMBER` (src/bale/_chatmember.py line 71). -/
def ChatMember.MEMBER : String := "member"

/-- `ChatMember._id` — the constructor sets
`self._id = (self.user.id, self.status)` (src/bale/_chatmember.py
line 125), a composite identity derived from the stored fields. -/
def ChatMember.baleIdOf (m : ChatMember) : Int × String :=
  (m.user.user_id, m.status)

/-- `ChatMember.is_owner` (src/bale/_chatmember.py lines 129-131):
`self.status == self.OWNER`. -/
def ChatMember.is_owner (m : ChatMember) : Bool := m.status == ChatMember.OWNER

/-- `ChatMember.is_admin` (src/bale/_chatmember.py lines 133-135):
`self.status in (self.OWNER, self.ADMIN)`. -/
def ChatMember.is_admin (m : ChatMember) : Bool :=
  m.status == ChatMember.OWNER || m.status == ChatMember.ADMIN

/- ### Message (src/bale/_message.py) -/

/-- The non-recursive fields of a `Message` entity (constructor
src/bale/_message.py lines 111-149).  Every optional constructor parameter
defaults to the `MissingValue` sentinel; `message_id` and `date` are
required.  The recursive `reply_to_message` field lives on the `Message`
wrapper. -/
structure MessageFields where
  message_id : Int
  date : Py Int
  text : Py String := Py.missing
  caption : Py String := Py.missing
  forward_from : Py User := Py.missing
  forward_from_chat : Py Chat := Py.missing
  forward_from_message_id : Py String := Py.missing
  from_user : Py User := Py.missing
  document : Py Document := Py.missing
  contact : Py Contact := Py.missing
  edit_date : Py Int := Py.missing
  location : Py Location := Py.missing
  chat : Py Chat := Py.missing
  video : Py Video := Py.missing
  photos : Py (List PhotoSize) := Py.missing
  sticker : Py Sticker := Py.missing
  invoice : Py Invoice := Py.missing
  audio : Py Audio := Py.missing
  voice : Py Voice := Py.missing
  successful_payment : Py SuccessfulPayment := Py.missing
  animation : Py Animation := Py.missing
  new_chat_members : Py (List User) := Py.missing
  left_chat_member : Py User := Py.missing
deriving DecidableEq

/-- The `Message` entity: its plain fields plus the recursive
`reply_to_message` field (src/bale/_message.py line 128). -/
inductive Message where
  | mk (fields : MessageFields) (reply_to_message : Py Message)

/-- The plain fields of a message. -/
def Message.fields : Message → MessageFields
  | .mk f _ => f

/-- `Message.reply_to_message`. -/
def Message.reply_to_message : Message → Py Message
  | .mk _ r => r

/-- `Message.message_id`. -/
def Message.message_id (m : Message) : Int := m.fields.message_id

/-- `Message._id` — the constructor sets `self._id = message_id`
(src/bale/_message.py line 122). -/
def Message.baleIdOf (m : Message) : Int := m.fields.message_id

/-- `Message.date`. -/
def Message.date (m : Message) : Py Int := m.fields.date

/-- `Message.text`. -/
def Message.text (m : Message) : Py String := m.fields.text

/-- `Message.caption`. -/
def Message.caption (m : Message) : Py String := m.fields.caption

/-- `Message.forward_from`. -/
def Message.forward_from (m : Message) : Py User := m.fields.forward_from

/-- `Message.forward_from_chat`. -/
def Message.forward_from_chat (m : Message) : Py Chat := m.fields.forward_from_chat

/-- `Message.forward_from_message_id`. -/
def Message.forward_from_message_id (m : Message) : Py String :=
  m.fields.forward_from_message_id

/-- `Message.from_user` (the wire field `from`, renamed because `from` is a
reserved word in Python; src/bale/_message.py line 198). -/
def Message.from_user (m : Message) : Py User := m.fields.from_user

/-- `Message.document`. -/
def Message.document (m : Message) : Py Document := m.fields.document

/-- `Message.contact`. -/
def Message.contact (m : Message) : Py Contact := m.fields.contact

/-- `Message.edit_date`. -/
def Message.edit_date (m : Message) : Py Int := m.fields.edit_date

/-- `Message.location`. -/
def Message.location (m : Message) : Py Location := m.fields.location

/-- `Message.chat`. -/
def Message.chat (m : Message) : Py Chat := m.fields.chat

/-- `Message.video`. -/
def Message.video (m : Message) : Py Video := m.fields.video

/-- `Message.photos`. -/
def Message.photos (m : Message) : Py (List PhotoSize) := m.fields.photos

/-- `Message.sticker`. -/
def Message.sticker (m : Message) : Py Sticker := m.fields.sticker

/-- `Message.invoice`. -/
def Message.invoice (m : Message) : Py Invoice := m.fields.invoice

/-- `Message.audio`. -/
def Message.audio (m : Message) : Py Audio := m.fields.audio

/-- `Message.voice`. -/
def Message.voice (m : Message) : Py Voice := m.fields.voice

/-- `Message.successful_payment`. -/
def Message.successful_payment (m : Message) : Py SuccessfulPayment :=
  m.fields.successful_payment

/-- `Message.animation`. -/
def Message.animation (m : Message) : Py Animation := m.fields.animation

/-- `Message.new_chat_members`. -/
def Message.new_chat_members (m : Message) : Py (List User) :=
  m.fields.new_chat_members

/-- `Message.left_chat_member`. -/
def Message.left_chat_member (m : Message) : Py User := m.fields.left_chat_member

/-- The length of the chain of expanded `reply_to_message` entities hanging
off a message: `0` when `reply_to_message` holds no message. -/
def Message.replyDepth : Message → Nat
  | .mk _ (Py.val r) => Message.replyDepth r + 1
  | .mk _ _ => 0

/-- The non-recursive wire fields of a `Message` payload, under the wire
key names read by `Message.from_dict` (src/bale/_message.py lines 197-215);
`from_user` stands for the wire key `from` (popped on line 198) and `photo`
is the wire key popped on line 204. -/
structure MessagePayloadFields where
  message_id : Int
  date : Option Int := Option.none
  text : Option String := Option.none
  caption : Option String := Option.none
  forward_from : Option UserPayload := Option.none
  forward_from_chat : Option ChatPayload := Option.none
  forward_from_message_id : Option String := Option.none
  from_user : Option UserPayload := Option.none
  chat : Option ChatPayload := Option.none
  document : Option FilePayload := Option.none
  contact : Option ContactPayload := Option.none
  edit_date : Option Int := Option.none
  location : Option LocationPayload := Option.none
  video : Option VideoPayload := Option.none
  photo : Option (List FilePayload) := Option.none
  sticker : Option FilePayload := Option.none
  invoice : Option InvoicePayload := Option.none
  audio : Option FilePayload := Option.none
  voice : Option FilePayload := Option.none
  successful_payment : Option SuccessfulPaymentPayload := Option.none
  animation : Option FilePayload := Option.none
  new_chat_members : Option (List UserPayload) := Option.none
  left_chat_member : Option UserPayload := Option.none
deriving DecidableEq

/-- A `Message` wire payload: its plain wire fields plus the (invalidly
nestable) `reply_to_message` sub-payload. -/
inductive MessagePayload where
  | mk (fields : MessagePayloadFields) (reply_to_message : Option MessagePayload)

/-- The nesting depth of raw `reply_to_message` sub-payloads. -/
def MessagePayload.replyDepth : MessagePayload → Nat
  | .mk _ (Option.some r) => MessagePayload.replyDepth r + 1
  | .mk _ Option.none => 0

set_option maxHeartbeats 1600000 in
/-- `Message.from_dict` on a present payload (src/bale/_message.py lines
191-217): `date`/`edit_date` go through `parse_time` (modelled from the
spec as the identity on a present timestamp, `None` on an absent one),
nested entity fields are pre-resolved through the nested type's own
`from_dict` (so an absent nested payload decodes to Python `None`), the
wire list `photo` defaults to `[]` and is mapped through
`PhotoSize.from_dict`, `new_chat_members` is mapped through
`User.from_dict` and collapsed to `None` when empty (`... or None`,
line 214), `reply_to_message` recurses through `Message.from_dict` itself
(line 202), and every remaining optional key left absent decodes to the
constructor's `MissingValue` default. -/
def parseMessage : MessagePayload → Message
  | .mk f r =>
    Message.mk
      { message_id := f.message_id
        date := Py.ofResolved f.date
        text := Py.ofWire f.text
        caption := Py.ofWire f.caption
        forward_from := Py.ofResolved (f.forward_from.map parseUser)
        forward_from_chat := Py.ofResolved (f.forward_from_chat.map parseChat)
        forward_from_message_id := Py.ofWire f.forward_from_message_id
        from_user := Py.ofResolved (f.from_user.map parseUser)
        document := Py.ofResolved (f.document.map parseDocument)
        contact := Py.ofResolved (f.contact.map parseContact)
        edit_date := Py.ofResolved f.edit_date
        location := Py.ofResolved (f.location.map parseLocation)
        chat := Py.ofResolved (f.chat.map parseChat)
        video := Py.ofResolved (f.video.map parseVideo)
        photos := Py.val ((f.photo.getD []).map parsePhotoSize)
        sticker := Py.ofResolved (f.sticker.map parseSticker)
        invoice := Py.ofResolved (f.invoice.map parseInvoice)
        audio := Py.ofResolved (f.audio.map parseAudio)
        voice := Py.ofResolved (f.voice.map parseVoice)
        successful_payment :=
          Py.ofResolved (f.successful_payment.map parseSuccessfulPayment)
        animation := Py.ofResolved (f.animation.map parseAnimation)
        new_chat_members :=
          (fun l => if l.isEmpty then Py.noneV else Py.val l)
            ((f.new_chat_members.getD []).map parseUser)
        left_chat_member := Py.ofResolved (f.left_chat_member.map parseUser) }
      (match r with
       | Option.none => Py.noneV
       | Option.some rp => Py.val (parseMessage rp))

/-- `Message.from_dict` (src/bale/_message.py lines 191-217): `None` on an
empty/absent payload, otherwise the constructed entity. -/
def Message.from_dict (d : Option MessagePayload) : Option Message :=
  d.map parseMessage

/-- The value `Message.attachment` returns when an attachment is present:
one of the six attachment-capable fields. -/
inductive Attachment where
  | video (v : Video)
  | photos (l : List PhotoSize)
  | audio (a : Audio)
  | animation (a : Animation)
  | voice (v : Voice)
  | document (d : Document)
deriving DecidableEq

/-- `Message.attachment` (src/bale/_message.py lines 161-168):
`self.video or self.photos or self.audio or self.animation or self.voice
or self.document`, then `None` if the chained value is falsy.  A present
entity is always truthy; the `photos` list is truthy only when nonempty. -/
def Message.attachment (m : Message) : Option Attachment :=
  match m.fields.video with
  | Py.val v => Option.some (Attachment.video v)
  | _ =>
    match m.fields.photos with
    | Py.val (p :: ps) => Option.some (Attachment.photos (p :: ps))
    | _ =>
      match m.fields.audio with
      | Py.val a => Option.some (Attachment.audio a)
      | _ =>
        match m.fields.animation with
        | Py.val a => Option.some (Attachment.animation a)
        | _ =>
          match m.fields.voice with
          | Py.val v => Option.some (Attachment.voice v)
          | _ =>
            match m.fields.document with
            | Py.val d => Option.some (Attachment.document d)
            | _ => Option.none

/-- `Message.content` (src/bale/_message.py lines 170-173):
`self.caption or self.text` — the caption when it is truthy, otherwise
whatever value `text` holds. -/
def Message.content (m : Message) : Py String :=
  if m.fields.caption.strTruthy then m.fields.caption else m.fields.text

/-- `Message.chat_id` (src/bale/_message.py lines 175-181). -/
def Message.chat_id (m : Message) : Option Int :=
  match m.fields.chat with
  | Py.val c => Option.some c.id
  | _ => Option.none

/-- `Message.reply_to_message_id` (src/bale/_message.py lines 183-189). -/
def Message.reply_to_message_id (m : Message) : Option Int :=
  match m.reply_to_message with
  | Py.val r => Option.some r.message_id
  | _ => Option.none

/- ### Sample payloads and entities used by concrete evaluations -/

/-- A message payload whose `reply_to_message` itself (invalidly) contains a
further nested `reply_to_message`: raw reply nesting depth 2. -/
def doublyNestedReplyPayload : MessagePayload :=
  MessagePayload.mk { message_id := 1, date := Option.some 1000 }
    (Option.some (MessagePayload.mk { message_id := 2, date := Option.some 1001 }
      (Option.some (MessagePayload.mk { message_id := 3, date := Option.some 1002 }
        Option.none))))

/-- A minimal message payload carrying only the required keys. -/
def minimalMessagePayload : MessagePayload :=
  MessagePayload.mk { message_id := 7, date := Option.some 1000 } Option.none

/-- A second minimal message payload (photos/new_chat_members evaluation). -/
def bareMessagePayload : MessagePayload :=
  MessagePayload.mk { message_id := 9, date := Option.some 1 } Option.none

/-- A minimal message payload for the `content` evaluation: neither `text`
nor `caption` on the wire. -/
def noTextMessagePayload : MessagePayload :=
  MessagePayload.mk { message_id := 12, date := Option.some 3 } Option.none

/-- Plain wire fields used by the absent-field decoding evaluation. -/
def plainWitnessFields : MessagePayloadFields :=
  { message_id := 8, date := Option.some 5 }

/-- A chat payload with no optional keys. -/
def bareChatPayload : ChatPayload := { id := 3, type := "private" }

/-- Wire fields carrying one new chat member and no photo. -/
def memberWitnessFields : MessagePayloadFields :=
  { message_id := 10, date := Option.some 2,
    new_chat_members := Option.some [{ id := 4 }] }

/-- A concrete video entity. -/
def sampleVideo : Video :=
  { file_id := "vid", file_unique_id := "vidu", file_size := Py.missing,
    width := 10, height := 20, duration := 30,
    file_name := Py.missing, mime_type := Py.missing }

/-- A message carrying only a video attachment. -/
def videoOnlyMessage : Message :=
  Message.mk { message_id := 11, date := Py.val 0, video := Py.val sampleVideo }
    Py.missing

/-- A chat member with the owner status. -/
def ownerMember : ChatMember := { status := "creator", user := { user_id := 5 } }

/-- Two chat payloads sharing an `id` but differing in every other field. -/
def chatPayloadSameIdA : ChatPayload :=
  { id := 99, type := "private", title := Option.some "A",
    username := Option.some "ua" }

/-- The second chat payload with the same `id` and different fields. -/
def chatPayloadSameIdB : ChatPayload :=
  { id := 99, type := "group", first_name := Option.some "B",
    invite_link := Option.some "link" }

/-- The assignment sequence of `Chat.__init__` (src/bale/_chat.py lines
68-76), with string-rendered values, as input to the locking model. -/
def chatInitAssigns : List (String × String) :=
  [("_id", "99"), ("id", "99"), ("type", "private"), ("title", "t"),
   ("username", "u"), ("first_name", "f"), ("last_name", "l"),
   ("photo", "p"), ("invite_link", "i")]

/- ### Helper lemmas -/

lemma startsWithList_map (f : Char → Char) :
    ∀ {n h : List Char}, startsWithList n h = true →
      startsWithList (n.map f) (h.map f) = true := by
  intro n
  induction n with
  | nil => intro h _; simp [startsWithList]
  | cons a ns ih =>
    intro h hs
    cases h with
    | nil => simp [startsWithList] at hs
    | cons b hs' =>
      simp only [startsWithList, Bool.and_eq_true, beq_iff_eq] at hs
      simp only [List.map_cons, startsWithList, Bool.and_eq_true, beq_iff_eq]
      exact ⟨by rw [hs.1], ih hs.2⟩

lemma containsList_map (f : Char → Char) :
    ∀ {n h : List Char}, containsList n h = true →
      containsList (n.map f) (h.map f) = true := by
  intro n h
  induction h with
  | nil =>
    intro hs
    simp only [containsList, List.isEmpty_iff] at hs
    simp [containsList, hs]
  | cons b hs' ih =>
    intro hs
    simp only [containsList, Bool.or_eq_true] at hs ⊢
    cases hs with
    | inl h1 =>
      left
      have := startsWithList_map f h1
      simpa using this
    | inr h2 => exact Or.inr (ih h2)

lemma containsList_ne_nil {n h : List Char} (hn : n ≠ [])
    (hc : containsList n h = true) : h ≠ [] := by
  intro heq
  subst heq
  simp only [containsList, List.isEmpty_iff] at hc
  exact hn hc

/- ### Claim theorems -/

/-- C10: every `check_description` predicate in the taxonomy is total on
optional descriptions — applied to an absent (`None`) description each
returns a falsy result instead of raising (the `description and ...` guard
short-circuits), and classification of a response with no description falls
through to the generic fallback. -/
theorem check_description_total_on_none :
    BaleError.check_description Option.none = false ∧
    InvalidToken.check_description Option.none = false ∧
    NotFound.check_description Option.none = false ∧
    Forbidden.check_description Option.none = false ∧
    BadRequest.check_description Option.none = false ∧
    classifyDescription Option.none = ErrorKind.genericBadRequest := by
  refine ⟨rfl, rfl, rfl, rfl, rfl, rfl⟩

/-- C4: classifying a server error description in the fixed priority order
(invalid-token, not-found, forbidden, bad-request, generic fallback) yields
the forbidden kind for `"Forbidden: bot was blocked"`, the bad-request kind
for `"Bad Request: invalid id"`, and the invalid-token kind for any
description containing `"token not found"` — even one that also starts with
`"Bad Request:"`, because the invalid-token predicate is tried first. -/
theorem error_description_classification :
    classifyDescription (Option.some "Forbidden: bot was blocked") =
      ErrorKind.forbidden ∧
    classifyDescription (Option.some "Bad Request: invalid id") =
      ErrorKind.badRequest ∧
    ∀ d : String, containsList "token not found".toList d.toList = true →
      classifyDescription (Option.some d) = ErrorKind.invalidToken := by
  refine ⟨by decide, by decide, ?_⟩
  intro d h
  have hnil : d.toList ≠ [] := containsList_ne_nil (by decide) h
  have hne : (d == "") = false := by
    cases he : d == "" with
    | true =>
      exact absurd (by rw [beq_iff_eq.mp he]; rfl) hnil
    | false => rfl
  have hlow : containsList "token not found".toList (pyLowerChars d.toList) = true := by
    have h2 := containsList_map Char.toLower h
    have h3 : ("token not found".toList.map Char.toLower) =
        "token not found".toList := by decide
    rw [h3] at h2
    simpa [pyLowerChars] using h2
  have hcheck : InvalidToken.check_description (Option.some d) = true := by
    simp only [InvalidToken.check_description, hne, Bool.false_eq_true,
      if_false, hlow]
  simp [classifyDescription, hcheck]

/-- C4 witness: a description that starts with `"Bad Request:"` but contains
`"token not found"` classifies as invalid-token, not bad-request. -/
theorem error_description_classification_witness :
    classifyDescription (Option.some "Bad Request: token not found") =
      ErrorKind.invalidToken :=
  error_description_classification.2.2 "Bad Request: token not found" (by decide)

/-- C7: once a constructor body (its field assignments followed by
`_lock()`) has completed, the entity is immutable — any subsequent field
write fails with an error rather than being silently ignored.  In the
shallow embedding every entity operation is a pure function, so no
operation mutates an entity after construction. -/
theorem locked_entity_rejects_writes {F V : Type} [DecidableEq F]
    (init : F → V) (assigns : List (F × V)) (f : F) (v : V) :
    setAttr (runInit init assigns) f v = Except.error lockErrorText := by
  simp [runInit, lockObject, setAttr]

/-- C7 witness: after running the `Chat.__init__` assignment sequence and
locking, a write to `title` fails with the lock error. -/
theorem locked_entity_rejects_writes_witness :
    setAttr (runInit (fun _ => "") chatInitAssigns) "title" "changed" =
      Except.error lockErrorText :=
  locked_entity_rejects_writes (fun _ => "") chatInitAssigns "title" "changed"

/-- C8: two `Chat` instances constructed from payloads carrying the same
`id` compare equal under the `_id`-based entity equality and have identical
hashes, regardless of any other field of the payloads. -/
theorem chat_identity_eq_hash (p q : ChatPayload) (h : p.id = q.id) :
    Chat.baleEq (parseChat p) (parseChat q) = true ∧
    Chat.baleHash (parseChat p) = Chat.baleHash (parseChat q) := by
  constructor
  · simp [Chat.baleEq, Chat.baleIdOf, parseChat, h]
  · simp [Chat.baleHash, Chat.baleIdOf, parseChat, h]

/-- C8 witness: two concrete payloads with `id = 99` and different types,
titles, usernames and invite links produce equal, equally-hashed chats. -/
theorem chat_identity_eq_hash_witness :
    Chat.baleEq (parseChat chatPayloadSameIdA) (parseChat chatPayloadSameIdB) =
      true ∧
    Chat.baleHash (parseChat chatPayloadSameIdA) =
      Chat.baleHash (parseChat chatPayloadSameIdB) :=
  chat_identity_eq_hash chatPayloadSameIdA chatPayloadSameIdB rfl

/-- C9: for every constructed `ChatMember`, `is_owner` implies `is_admin`;
`is_owner` holds exactly when the status is `"creator"` and `is_admin`
exactly when it is `"creator"` or `"administrator"`, so owners form a
subset of admins. -/
theorem chatmember_owner_is_admin (m : ChatMember) :
    (m.is_owner = true → m.is_admin = true) ∧
    (m.is_owner = true ↔ m.status = "creator") ∧
    (m.is_admin = true ↔ (m.status = "creator" ∨ m.status = "administrator")) := by
  simp only [ChatMember.is_owner, ChatMember.is_admin, ChatMember.OWNER,
    ChatMember.ADMIN, beq_iff_eq, Bool.or_eq_true]
  tauto

/-- C9 witness: the concrete owner member is an admin. -/
theorem chatmember_owner_is_admin_witness :
    ownerMember.is_admin = true :=
  (chatmember_owner_is_admin ownerMember).1 (by decide)

/-- C1 counterexample: on a payload whose `reply_to_message` itself
(invalidly) nests a further `reply_to_message`, `Message.from_dict` produces
a message whose nested reply message DOES carry a further expanded reply
message — the parsed reply chain has depth 2, not the claimed cap of 1. -/
theorem message_reply_depth_counterexample :
    (Message.from_dict (Option.some doublyNestedReplyPayload)).map
        Message.replyDepth = Option.some 2 ∧
    (Message.from_dict (Option.some doublyNestedReplyPayload)).map
        (fun m =>
          match m.reply_to_message with
          | Py.val r => r.reply_to_message.isVal
          | _ => false) = Option.some true := by
  exact ⟨rfl, rfl⟩

/-- C1 (amended): `Message.from_dict` recursively expands the whole
`reply_to_message` chain — the parsed reply depth equals the raw payload's
reply nesting depth, with no cap applied by the model (the depth-1 guarantee
comes from the upstream API alone). -/
theorem message_from_dict_reply_depth :
    ∀ p : MessagePayload, (parseMessage p).replyDepth = p.replyDepth
  | .mk f Option.none => by
    simp [parseMessage, Message.replyDepth, MessagePayload.replyDepth]
  | .mk f (Option.some r) => by
    have ih := message_from_dict_reply_depth r
    simp [parseMessage, Message.replyDepth, MessagePayload.replyDepth, ih]

/-- C1 witness: on the doubly nested payload the parsed reply depth is the
payload's nesting depth, 2. -/
theorem message_from_dict_reply_depth_witness :
    (parseMessage doublyNestedReplyPayload).replyDepth = 2 :=
  message_from_dict_reply_depth doublyNestedReplyPayload

/-- C2 counterexample: on a payload with no `chat` key, `Message.from_dict`
decodes `Message.chat` to Python `None` — not to the `MissingValue`
sentinel, which is a distinct value. -/
theorem message_absent_chat_counterexample :
    (Message.from_dict (Option.some minimalMessagePayload)).map Message.chat =
      Option.some Py.noneV ∧
    (Py.noneV : Py Chat) ≠ Py.missing := by
  exact ⟨rfl, by decide⟩

/-- C2 (amended): a plain optional wire field left absent decodes to the
`MissingValue` sentinel (shown for `text`, `caption`,
`forward_from_message_id` on `Message` and `title` on `Chat`), while a
nested-entity field left absent decodes to Python `None`, because the
entity-specific `from_dict` pre-resolves it through the nested type's
`from_dict`, which returns `None` on an empty payload (shown for
`Message.chat`, `Message.document`, `Message.forward_from` and
`Chat.photo`). -/
theorem absent_optional_field_decoding (f : MessagePayloadFields)
    (r : Option MessagePayload) (cp : ChatPayload)
    (ht : f.text = Option.none) (hcap : f.caption = Option.none)
    (hfid : f.forward_from_message_id = Option.none)
    (hchat : f.chat = Option.none) (hdoc : f.document = Option.none)
    (hfwd : f.forward_from = Option.none)
    (hcpt : cp.title = Option.none) (hcpp : cp.photo = Option.none) :
    (parseMessage (MessagePayload.mk f r)).text = Py.missing ∧
    (parseMessage (MessagePayload.mk f r)).caption = Py.missing ∧
    (parseMessage (MessagePayload.mk f r)).forward_from_message_id =
      Py.missing ∧
    (parseMessage (MessagePayload.mk f r)).chat = Py.noneV ∧
    (parseMessage (MessagePayload.mk f r)).document = Py.noneV ∧
    (parseMessage (MessagePayload.mk f r)).forward_from = Py.noneV ∧
    (parseChat cp).title = Py.missing ∧
    (parseChat cp).photo = Py.noneV := by
  cases r <;>
    exact ⟨by simp [parseMessage, Message.text, Message.fields, ht, Py.ofWire],
      by simp [parseMessage, Message.caption, Message.fields, hcap, Py.ofWire],
      by simp [parseMessage, Message.forward_from_message_id, Message.fields,
        hfid, Py.ofWire],
      by simp [parseMessage, Message.chat, Message.fields, hchat,
        Py.ofResolved],
      by simp [parseMessage, Message.document, Message.fields, hdoc,
        Py.ofResolved],
      by simp [parseMessage, Message.forward_from, Message.fields, hfwd,
        Py.ofResolved],
      by simp [parseChat, hcpt, Py.ofWire],
      by simp [parseChat, hcpp, Py.ofResolved]⟩

/-- C2 witness: the amended decoding rules at a concrete minimal message
payload and a concrete minimal chat payload. -/
theorem absent_optional_field_decoding_witness :
    (parseMessage (MessagePayload.mk plainWitnessFields Option.none)).text =
      Py.missing ∧
    (parseMessage (MessagePayload.mk plainWitnessFields Option.none)).caption =
      Py.missing ∧
    (parseMessage (MessagePayload.mk plainWitnessFields
      Option.none)).forward_from_message_id = Py.missing ∧
    (parseMessage (MessagePayload.mk plainWitnessFields Option.none)).chat =
      Py.noneV ∧
    (parseMessage (MessagePayload.mk plainWitnessFields Option.none)).document =
      Py.noneV ∧
    (parseMessage (MessagePayload.mk plainWitnessFields
      Option.none)).forward_from = Py.noneV ∧
    (parseChat bareChatPayload).title = Py.missing ∧
    (parseChat bareChatPayload).photo = Py.noneV :=
  absent_optional_field_decoding plainWitnessFields Option.none bareChatPayload
    rfl rfl rfl rfl rfl rfl rfl rfl

/-- C3 counterexample: on a payload with no `photo` key, `Message.from_dict`
decodes `Message.photos` to a present empty list — the empty parsed list
does not collapse to a no-value at the entity boundary. -/
theorem message_empty_photos_counterexample :
    (Message.from_dict (Option.some bareMessagePayload)).map Message.photos =
      Option.some (Py.val ([] : List PhotoSize)) ∧
    Py.val ([] : List PhotoSize) ≠ Py.noneV := by
  exact ⟨rfl, by decide⟩

/-- C3 (amended): both list-valued wire fields default to an empty sequence
when absent, but only `new_chat_members` collapses an empty parsed list to
`None` (`... or None`, src/bale/_message.py line 214); `photos` stays a
present (possibly empty) list. -/
theorem list_field_decoding (f : MessagePayloadFields)
    (r : Option MessagePayload) :
    (f.photo = Option.none →
      (parseMessage (MessagePayload.mk f r)).photos =
        Py.val ([] : List PhotoSize)) ∧
    (∀ ps, f.photo = Option.some ps →
      (parseMessage (MessagePayload.mk f r)).photos =
        Py.val (ps.map parsePhotoSize)) ∧
    (f.new_chat_members = Option.none →
      (parseMessage (MessagePayload.mk f r)).new_chat_members = Py.noneV) ∧
    (f.new_chat_members = Option.some [] →
      (parseMessage (MessagePayload.mk f r)).new_chat_members = Py.noneV) ∧
    (∀ u us, f.new_chat_members = Option.some (u :: us) →
      (parseMessage (MessagePayload.mk f r)).new_chat_members =
        Py.val ((u :: us).map parseUser)) := by
  cases r <;>
    refine ⟨?_, ?_, ?_, ?_, ?_⟩ <;> intros <;>
      simp_all [parseMessage, Message.photos, Message.new_chat_members,
        Message.fields]

/-- C3 witness: the amended list decoding at a concrete payload carrying one
new chat member and no photo. -/
theorem list_field_decoding_witness :
    (parseMessage (MessagePayload.mk memberWitnessFields Option.none)).photos =
      Py.val ([] : List PhotoSize) ∧
    (parseMessage (MessagePayload.mk memberWitnessFields
      Option.none)).new_chat_members = Py.val [({ user_id := 4 } : User)] :=
  ⟨(list_field_decoding memberWitnessFields Option.none).1 rfl,
   (list_field_decoding memberWitnessFields Option.none).2.2.2.2
     { id := 4 } [] rfl⟩

lemma Py.isVal_false_cases {α : Type} {p : Py α} (h : p.isVal = false) :
    p = Py.missing ∨ p = Py.noneV := by
  cases p <;> simp_all [Py.isVal]

lemma Py.listTruthy_false_cases {α : Type} {p : Py (List α)}
    (h : p.listTruthy = false) :
    p = Py.missing ∨ p = Py.noneV ∨ p = Py.val [] := by
  cases p with
  | missing => exact Or.inl rfl
  | noneV => exact Or.inr (Or.inl rfl)
  | val l =>
    simp only [Py.listTruthy, Bool.not_eq_false', List.isEmpty_iff] at h
    exact Or.inr (Or.inr (by rw [h]))

/-- C5: `Message.attachment` returns the first truthy field among
video, photos, audio, animation, voice, document — in that priority
order — and `None` when none of the six is truthy (a present entity is
always truthy; a photos list is truthy only when nonempty). -/
theorem message_attachment_priority (m : Message) :
    (∀ v, m.video = Py.val v →
      m.attachment = Option.some (Attachment.video v)) ∧
    (m.video.isVal = false → ∀ l, l ≠ [] → m.photos = Py.val l →
      m.attachment = Option.some (Attachment.photos l)) ∧
    (m.video.isVal = false → m.photos.listTruthy = false →
      ∀ a, m.audio = Py.val a →
      m.attachment = Option.some (Attachment.audio a)) ∧
    (m.video.isVal = false → m.photos.listTruthy = false →
      m.audio.isVal = false → ∀ a, m.animation = Py.val a →
      m.attachment = Option.some (Attachment.animation a)) ∧
    (m.video.isVal = false → m.photos.listTruthy = false →
      m.audio.isVal = false → m.animation.isVal = false →
      ∀ v, m.voice = Py.val v →
      m.attachment = Option.some (Attachment.voice v)) ∧
    (m.video.isVal = false → m.photos.listTruthy = false →
      m.audio.isVal = false → m.animation.isVal = false →
      m.voice.isVal = false → ∀ d, m.document = Py.val d →
      m.attachment = Option.some (Attachment.document d)) ∧
    (m.video.isVal = false → m.photos.listTruthy = false →
      m.audio.isVal = false → m.animation.isVal = false →
      m.voice.isVal = false → m.document.isVal = false →
      m.attachment = Option.none) := by
  obtain ⟨f, r⟩ := m
  refine ⟨?_, ?_, ?_, ?_, ?_, ?_, ?_⟩
  · intro v hv
    simp only [Message.video, Message.fields] at hv
    simp [Message.attachment, Message.fields, hv]
  · intro hv l hl hp
    simp only [Message.video, Message.fields] at hv
    simp only [Message.photos, Message.fields] at hp
    rcases Py.isVal_false_cases hv with e1 | e1 <;>
      cases l with
      | nil => exact absurd rfl hl
      | cons p ps => simp [Message.attachment, Message.fields, e1, hp]
  · intro hv hp a ha
    simp only [Message.video, Message.photos, Message.audio,
      Message.fields] at hv hp ha
    rcases Py.isVal_false_cases hv with e1 | e1 <;>
    rcases Py.listTruthy_false_cases hp with e2 | e2 | e2 <;>
      simp [Message.attachment, Message.fields, e1, e2, ha]
  · intro hv hp hau a ha
    simp only [Message.video, Message.photos, Message.audio,
      Message.animation, Message.fields] at hv hp hau ha
    rcases Py.isVal_false_cases hv with e1 | e1 <;>
    rcases Py.listTruthy_false_cases hp with e2 | e2 | e2 <;>
    rcases Py.isVal_false_cases hau with e3 | e3 <;>
      simp [Message.attachment, Message.fields, e1, e2, e3, ha]
  · intro hv hp hau han v hvo
    simp only [Message.video, Message.photos, Message.audio,
      Message.animation, Message.voice, Message.fields] at hv hp hau han hvo
    rcases Py.isVal_false_cases hv with e1 | e1 <;>
    rcases Py.listTruthy_false_cases hp with e2 | e2 | e2 <;>
    rcases Py.isVal_false_cases hau with e3 | e3 <;>
    rcases Py.isVal_false_cases han with e4 | e4 <;>
      simp [Message.attachment, Message.fields, e1, e2, e3, e4, hvo]
  · intro hv hp hau han hvo d hd
    simp only [Message.video, Message.photos, Message.audio,
      Message.animation, Message.voice, Message.document,
      Message.fields] at hv hp hau han hvo hd
    rcases Py.isVal_false_cases hv with e1 | e1 <;>
    rcases Py.listTruthy_false_cases hp with e2 | e2 | e2 <;>
    rcases Py.isVal_false_cases hau with e3 | e3 <;>
    rcases Py.isVal_false_cases han with e4 | e4 <;>
    rcases Py.isVal_false_cases hvo with e5 | e5 <;>
      simp [Message.attachment, Message.fields, e1, e2, e3, e4, e5, hd]
  · intro hv hp hau han hvo hd
    simp only [Message.video, Message.photos, Message.audio,
      Message.animation, Message.voice, Message.document,
      Message.fields] at hv hp hau han hvo hd
    rcases Py.isVal_false_cases hv with e1 | e1 <;>
    rcases Py.listTruthy_false_cases hp with e2 | e2 | e2 <;>
    rcases Py.isVal_false_cases hau with e3 | e3 <;>
    rcases Py.isVal_false_cases han with e4 | e4 <;>
    rcases Py.isVal_false_cases hvo with e5 | e5 <;>
    rcases Py.isVal_false_cases hd with e6 | e6 <;>
      simp [Message.attachment, Message.fields, e1, e2, e3, e4, e5, e6]

/-- C5 witness: a message carrying only a video yields that video as its
attachment. -/
theorem message_attachment_priority_witness :
    videoOnlyMessage.attachment = Option.some (Attachment.video sampleVideo) :=
  (message_attachment_priority videoOnlyMessage).1 sampleVideo rfl

/-- C6: evaluating `Message.content` on a message decoded from a payload
with neither `text` nor `caption` yields the `MissingValue` sentinel —
not `None`, contradicting the method's own docstring (src/bale/_message.py
line 172: "``None`` if the message don't have text or caption"). -/
theorem message_content_missing_eval :
    (Message.from_dict (Option.some noTextMessagePayload)).map Message.content =
      Option.some Py.missing ∧
    (Py.missing : Py String) ≠ Py.noneV := by
  exact ⟨rfl, by decide⟩
